import Mathlib

/-!
Verification development for the better-battery-report repository (bbrpy).

Shallow embedding of the acquisition / parsing / format-dispatch pipeline:
  - src/bbrpy/formats.py   : the ReportFormat enum defined for the whole application
  - src/bbrpy/cli.py       : a second ReportFormat enum plus the info and report commands
  - src/bbrpy/generator.py : the powercfg subprocess acquirer

Side effects (subprocess invocations, file and directory writes, temporary
directory lifecycle, printed lines, browser openings) are made explicit in a
Trace record returned next to each result.  Python exceptions are embedded as
an explicit error type; an uncaught exception terminates the process with
exit code 1, and typer.Exit carries its own code.
-/

namespace BBRpy

/-- The ReportFormat enum of src/bbrpy/formats.py (members BETTER, DEFAULT, RAW). -/
inductive Formats.ReportFormat
  | BETTER
  | DEFAULT
  | RAW
deriving DecidableEq, BEq, Repr

/-- String value of each member of the formats.py enum (BETTER = "better", ...). -/
def Formats.ReportFormat.value : Formats.ReportFormat → String
  | .BETTER => "better"
  | .DEFAULT => "default"
  | .RAW => "raw"

/-- formats.py ReportFormat.extension: ".html" when self is in [BETTER, DEFAULT],
".xml" when self is RAW, and "" on the fall-through return. -/
def Formats.ReportFormat.extension (f : Formats.ReportFormat) : String :=
  if f == .BETTER || f == .DEFAULT then ".html"
  else if f == .RAW then ".xml"
  else ""

/-- formats.py ReportFormat.needs_report_obj: self == BETTER. -/
def Formats.ReportFormat.needs_report_obj (f : Formats.ReportFormat) : Bool :=
  f == .BETTER

/-- formats.py ReportFormat.browser_viewable: self in [BETTER, DEFAULT]. -/
def Formats.ReportFormat.browser_viewable (f : Formats.ReportFormat) : Bool :=
  f == .BETTER || f == .DEFAULT

/-- The ReportFormat enum defined a second time inside src/bbrpy/cli.py
(same members BETTER, DEFAULT, RAW). -/
inductive Cli.ReportFormat
  | BETTER
  | DEFAULT
  | RAW
deriving DecidableEq, BEq, Repr

/-- String value of each member of the cli.py enum. -/
def Cli.ReportFormat.value : Cli.ReportFormat → String
  | .BETTER => "better"
  | .DEFAULT => "default"
  | .RAW => "raw"

/-- cli.py ReportFormat.extension: ".html" when self is in [BETTER, DEFAULT],
".xml" when self is RAW, and "" on the fall-through return. -/
def Cli.ReportFormat.extension (f : Cli.ReportFormat) : String :=
  if f == .BETTER || f == .DEFAULT then ".html"
  else if f == .RAW then ".xml"
  else ""

/-- cli.py ReportFormat.needs_report_obj: self == BETTER. -/
def Cli.ReportFormat.needs_report_obj (f : Cli.ReportFormat) : Bool :=
  f == .BETTER

/-- cli.py ReportFormat.browser_viewable: self in [BETTER, DEFAULT]. -/
def Cli.ReportFormat.browser_viewable (f : Cli.ReportFormat) : Bool :=
  f == .BETTER || f == .DEFAULT

/-- The members of the cli.py enum in declaration order, as iterated by
`[f.value for f in ReportFormat]`. -/
def Cli.ReportFormat.members : List Cli.ReportFormat :=
  [.BETTER, .DEFAULT, .RAW]

/-- Python Enum value lookup `ReportFormat(v)` on the cli.py enum: the member
whose string value equals v, else a ValueError (None here). -/
def Cli.reportFormatOfValue (v : String) : Option Cli.ReportFormat :=
  if v == "better" then some .BETTER
  else if v == "default" then some .DEFAULT
  else if v == "raw" then some .RAW
  else none

/-- One history entry of the battery report.
Modelled from the spec: models.py is not under src/; spec section 3 defines
HistoryEntry as StartDate plus DesignCapacity and FullChargeCapacity in mWh. -/
structure HistoryEntry where
  StartDate : String
  DesignCapacity : Nat
  FullChargeCapacity : Nat
deriving DecidableEq, Repr

/-- pydantic model_dump on a HistoryEntry: the record of its fields, which the
embedding keeps as the record itself. -/
def HistoryEntry.model_dump (e : HistoryEntry) : HistoryEntry := e

/-- The parsed battery report domain record.
Modelled from the spec: models.py is not under src/; spec section 3 gives
ComputerName, LocalScanTime, DesignCapacity, FullChargeCapacity and the
History sequence; cli.py reads the convenience fields computer name,
scan_time, design_cap and full_cap. -/
structure BatteryReport where
  computer_name : String
  scan_time : String
  design_cap : Nat
  full_cap : Nat
  History : List HistoryEntry
deriving DecidableEq, Repr

/-- Embedded Python exceptions and typer exits. -/
inductive PyError
  | platformError (detectedPlatform : String)
  | calledProcessError (returncode : Nat) (cmd : List String)
  | typeError (msg : String)
  | typerExit (code : Nat)
deriving DecidableEq, Repr

/-- Process exit code of a finished command: 0 on success, the carried code for
typer.Exit, and 1 for any uncaught exception (CPython behaviour). -/
def exitCode {α : Type} : Except PyError α → Nat
  | .ok _ => 0
  | .error (.typerExit c) => c
  | .error _ => 1

/-- Observable side effects of a run. -/
structure Trace where
  subprocessCalls : List (List String) := []
  filesWritten : List (String × String) := []
  dirsCreated : List String := []
  tempDirsCreated : Nat := 0
  tempDirsRemoved : Nat := 0
  reportSupplierCalls : Nat := 0
  readEncodings : List String := []
  seriesToRenderer : Option (List HistoryEntry) := none
  printed : List String := []
  browserOpened : List String := []
deriving DecidableEq, Repr

/-- Sequential composition of two traces. -/
def Trace.merge (a b : Trace) : Trace where
  subprocessCalls := a.subprocessCalls ++ b.subprocessCalls
  filesWritten := a.filesWritten ++ b.filesWritten
  dirsCreated := a.dirsCreated ++ b.dirsCreated
  tempDirsCreated := a.tempDirsCreated + b.tempDirsCreated
  tempDirsRemoved := a.tempDirsRemoved + b.tempDirsRemoved
  reportSupplierCalls := a.reportSupplierCalls + b.reportSupplierCalls
  readEncodings := a.readEncodings ++ b.readEncodings
  seriesToRenderer := (b.seriesToRenderer).orElse (fun _ => a.seriesToRenderer)
  printed := a.printed ++ b.printed
  browserOpened := a.browserOpened ++ b.browserOpened

/-- Prefix test on character lists. -/
def charsPrefix : List Char → List Char → Bool
  | [], _ => true
  | _ :: _, [] => false
  | a :: as, b :: bs => a == b && charsPrefix as bs

/-- Infix test on character lists: pat occurs contiguously inside l. -/
def charsInfix (pat : List Char) : List Char → Bool
  | [] => charsPrefix pat []
  | b :: bs => charsPrefix pat (b :: bs) || charsInfix pat bs

/-- Substring test: pat occurs contiguously inside s. -/
def strContains (s pat : String) : Bool :=
  charsInfix pat.data s.data

/-- ASCII lowercasing of a character list. -/
def lowerChars : List Char → List Char
  | [] => []
  | c :: cs => c.toLower :: lowerChars cs

/-- Python str.lower (the format values are ASCII, so ASCII lowercasing is
exact on every input the command distinguishes). -/
def pyLower (s : String) : String :=
  ⟨lowerChars s.data⟩

/-- Split a character list on a separator character; mirrors splitting a
string on a one-character separator. -/
def splitChars (sep : Char) : List Char → List (List Char)
  | [] => [[]]
  | c :: cs =>
    if c == sep then [] :: splitChars sep cs
    else
      match splitChars sep cs with
      | [] => [[c]]
      | g :: gs => (c :: g) :: gs

/-- Split a string on a one-character separator. -/
def strSplit (sep : Char) (s : String) : List String :=
  (splitChars sep s.data).map fun l => ⟨l⟩

/-- Join strings with a separator. -/
def joinWith (sep : String) : List String → String
  | [] => ""
  | [x] => x
  | x :: y :: xs => x ++ sep ++ joinWith sep (y :: xs)

/-- pathlib stem of a file name: the name up to its last dot; a name with no
dot, or only a leading dot, is its own stem. -/
def nameStem (name : String) : String :=
  match strSplit '.' name with
  | [] => name
  | [_] => name
  | p :: rest =>
    if p = "" && rest.length = 1 then name
    else joinWith "." ((p :: rest).dropLast)

/-- pathlib Path.with_suffix: replace the suffix of the final path component. -/
def with_suffix (p suffix : String) : String :=
  let parts := strSplit '/' p
  joinWith "/" (parts.dropLast ++ [nameStem (parts.getLastD "") ++ suffix])

/-- pathlib Path.resolve relative to a current working directory (".." entries
are not exercised by the pipeline and are left as-is). -/
def resolvePath (cwd p : String) : String :=
  if charsPrefix ['/'] p.data then p
  else cwd ++ "/" ++ (if charsPrefix ['.', '/'] p.data then ⟨p.data.drop 2⟩ else p)

/-- pathlib Path.parent: drop the final path component. -/
def parentPath (p : String) : String :=
  joinWith "/" (strSplit '/' p).dropLast

/-- The host and collaborator state a run depends on: the platform identifier
reported by platform.system(), the behaviour of the external powercfg utility
(exit status and the content it writes for the XML and HTML variants), the
availability of the optional pandas and plotly dependencies, the record the
parser would produce from the XML content, the external plotly renderer as an
opaque function from the history series to written HTML, and the current
working directory used by Path.resolve. -/
structure Env where
  platformSystem : String
  powercfgExitCode : Nat
  powercfgXml : String
  powercfgHtml : String
  plotlyAvailable : Bool
  parsedReport : BatteryReport
  pxLineHtml : List HistoryEntry → String
  cwd : String

/-- Path of the report file inside the scoped temporary directory of
generator.py (base "report" with suffix ".xml" or ".html"). -/
def tempReportPath (as_xml : Bool) : String :=
  "/tmp/tmpdir/report" ++ (if as_xml then ".xml" else ".html")

/-- The powercfg command line built by generator.py: powercfg /batteryreport
/output filepath, plus /xml when as_xml. -/
def powercfgCmd (as_xml : Bool) : List String :=
  ["powercfg", "/batteryreport", "/output", tempReportPath as_xml]
    ++ (if as_xml then ["/xml"] else [])

/-- generator.py _generate_battery_report(as_xml): raise PlatformError unless
platform.system() == "Windows"; then, inside a with tempfile.TemporaryDirectory()
block, run powercfg with check=True (a non-zero exit status raises
CalledProcessError) and read the produced file back with read_text("utf-8").
The with block removes the temporary directory on every exit path, normal or
exceptional. -/
def _generate_battery_report (env : Env) (as_xml : Bool) :
    Except PyError String × Trace :=
  if env.platformSystem != "Windows" then
    (.error (.platformError env.platformSystem), {})
  else
    let cmd := powercfgCmd as_xml
    if env.powercfgExitCode != 0 then
      (.error (.calledProcessError env.powercfgExitCode cmd),
       { subprocessCalls := [cmd], tempDirsCreated := 1, tempDirsRemoved := 1 })
    else
      let content := if as_xml then env.powercfgXml else env.powercfgHtml
      (.ok content,
       { subprocessCalls := [cmd],
         filesWritten := [(tempReportPath as_xml, content)],
         tempDirsCreated := 1, tempDirsRemoved := 1,
         readEncodings := ["utf-8"] })

/-- generator.py generate_battery_report_xml(): _generate_battery_report(as_xml=True). -/
def generate_battery_report_xml (env : Env) : Except PyError String × Trace :=
  _generate_battery_report env true

/-- generator.py generate_battery_report_html(): _generate_battery_report(). -/
def generate_battery_report_html (env : Env) : Except PyError String × Trace :=
  _generate_battery_report env false

/-- Keyword parameter names accepted by generate_battery_report_xml: none, its
def line in generator.py declares no parameters. -/
def generate_battery_report_xml.kwparams : List String := []

/-- Keyword parameter names accepted by generate_battery_report_html: none, its
def line in generator.py declares no parameters. -/
def generate_battery_report_html.kwparams : List String := []

/-- Python call semantics for keyword arguments: supplying a keyword argument
the callee does not accept raises TypeError before the callee body runs. -/
def callWithKwargs {α : Type} (accepted supplied : List String)
    (body : Unit → Except PyError α × Trace) : Except PyError α × Trace :=
  match supplied.find? (fun k => !accepted.contains k) with
  | some k => (.error (.typeError ("unexpected keyword argument " ++ k)), {})
  | none => body ()

/-- The message of the PlatformError raised by generator.py, ending in the
detected platform name (markup characters are omitted). -/
def platformErrorMessage (detected : String) : String :=
  "This tool is designed for Windows systems only as it relies on the powercfg command. For the time being, it cannot run on your current platform: "
    ++ detected

/-- models.py BatteryReport.generate.
Modelled from the spec: models.py is not under src/; per spec sections 2 and 4
the classmethod runs the platform gate and acquirer (generate_battery_report_xml
of generator.py, embedded above from its source) and parses the returned XML
content into the domain record.  Parsing is abstracted as env.parsedReport.
Every call is counted in reportSupplierCalls, the call-count spy of the spec. -/
def BatteryReport.generate (env : Env) : Except PyError BatteryReport × Trace :=
  match generate_battery_report_xml env with
  | (.ok _, t) => (.ok env.parsedReport, { t with reportSupplierCalls := 1 })
  | (.error e, t) => (.error e, { t with reportSupplierCalls := 1 })

/-- cli.py _get_battery_report: call BatteryReport.generate, catch PlatformError,
print it and raise typer.Exit(code=1); other exceptions propagate. -/
def _get_battery_report (env : Env) : Except PyError BatteryReport × Trace :=
  match BatteryReport.generate env with
  | (.ok r, t) => (.ok r, t)
  | (.error (.platformError p), t) =>
      (.error (.typerExit 1),
       { t with printed := t.printed ++ [":warning: Error: " ++ platformErrorMessage p] })
  | (.error e, t) => (.error e, t)

/-- The valid format values printed on an invalid format:
[f.value for f in ReportFormat]. -/
def valid_formats : List String :=
  Cli.ReportFormat.members.map Cli.ReportFormat.value

/-- Head of the invalid-format error message of cli.py (markup omitted). -/
def invalidFormatPrefix (format_str : String) : String :=
  ":warning: Error: Invalid format " ++ format_str

/-- Full invalid-format error message: names the offending string and then
enumerates the valid set, joined with commas. -/
def invalidFormatMessage (format_str : String) : String :=
  invalidFormatPrefix format_str ++ ". Use " ++ joinWith ", " valid_formats

/-- cli.py _validate_report_format: ReportFormat(format_str.lower()); on
ValueError print the message enumerating the valid formats and raise
typer.Exit(1). -/
def _validate_report_format (format_str : String) :
    Except PyError Cli.ReportFormat × Trace :=
  match Cli.reportFormatOfValue (pyLower format_str) with
  | some f => (.ok f, {})
  | none => (.error (.typerExit 1), { printed := [invalidFormatMessage format_str] })

/-- The missing-dependency message of _generate_better_report (markup omitted). -/
def missingDepsMessage : String :=
  ":warning: Error: Missing extra dependencies! Use bbrpy[report] to run this command"

/-- cli.py _generate_better_report(output_path, report_obj): if pandas or
plotly cannot be imported, print the remediation message and raise
typer.Exit(1); otherwise build the data frame from
[entry.model_dump() for entry in report_obj.History], hand that series to the
external plotly renderer (px.line followed by fig.write_html), write its HTML
to output_path.with_suffix(ReportFormat.BETTER.extension) and return that
final path. -/
def _generate_better_report (env : Env) (output_path : String)
    (report_obj : BatteryReport) : Except PyError String × Trace :=
  if !env.plotlyAvailable then
    (.error (.typerExit 1), { printed := [missingDepsMessage] })
  else
    let history_df := report_obj.History.map HistoryEntry.model_dump
    let final_path := with_suffix output_path (Cli.ReportFormat.BETTER.extension)
    (.ok final_path,
     { filesWritten := [(final_path, env.pxLineHtml history_df)],
       seriesToRenderer := some history_df })

/-- cli.py _generate_default_report(output_path): resolve
final_path = output_path.with_suffix(ReportFormat.DEFAULT.extension), then call
generate_battery_report_html(output_path=final_path).  generator.py defines
generate_battery_report_html with no parameters, so the keyword argument raises
TypeError at the call; on a normal return the function would return final_path. -/
def _generate_default_report (env : Env) (output_path : String) :
    Except PyError String × Trace :=
  let final_path := with_suffix output_path (Cli.ReportFormat.DEFAULT.extension)
  match callWithKwargs generate_battery_report_html.kwparams ["output_path"]
      (fun _ => generate_battery_report_html env) with
  | (.ok _, t) => (.ok final_path, t)
  | (.error e, t) => (.error e, t)

/-- cli.py _generate_raw_report(output_path): resolve
final_path = output_path.with_suffix(ReportFormat.RAW.extension), then call
generate_battery_report_xml(output_path=final_path).  generator.py defines
generate_battery_report_xml with no parameters, so the keyword argument raises
TypeError at the call; on a normal return the function would return final_path. -/
def _generate_raw_report (env : Env) (output_path : String) :
    Except PyError String × Trace :=
  let final_path := with_suffix output_path (Cli.ReportFormat.RAW.extension)
  match callWithKwargs generate_battery_report_xml.kwparams ["output_path"]
      (fun _ => generate_battery_report_xml env) with
  | (.ok _, t) => (.ok final_path, t)
  | (.error e, t) => (.error e, t)

/-- FORMAT_HANDLERS lookup followed by the two-argument call
handler(output_path, report_obj).  _generate_default_report and
_generate_raw_report accept a single positional argument, so the two-argument
call would raise TypeError; the report command only reaches this branch when
needs_report_obj holds, hence only for BETTER. -/
def callHandlerWithReport (env : Env) (f : Cli.ReportFormat)
    (output_path : String) (report_obj : BatteryReport) :
    Except PyError String × Trace :=
  match f with
  | .BETTER => _generate_better_report env output_path report_obj
  | .DEFAULT => (.error (.typeError "too many positional arguments"), {})
  | .RAW => (.error (.typeError "too many positional arguments"), {})

/-- FORMAT_HANDLERS lookup followed by the one-argument call
handler(output_path).  _generate_better_report requires report_obj, so the
one-argument call would raise TypeError; the report command only reaches this
branch when needs_report_obj is false, hence for DEFAULT and RAW. -/
def callHandlerNoReport (env : Env) (f : Cli.ReportFormat)
    (output_path : String) : Except PyError String × Trace :=
  match f with
  | .BETTER => (.error (.typeError "missing positional argument report_obj"), {})
  | .DEFAULT => _generate_default_report env output_path
  | .RAW => _generate_raw_report env output_path

/-- Printed line of cli.py info for the scan time (markup kept). -/
def infoScanTimeLine (r : BatteryReport) : String :=
  ":alarm_clock: Scan Time: [green]" ++ r.scan_time ++ "[/green]"

/-- Printed line of cli.py info for the capacities. -/
def infoCapacityLine (r : BatteryReport) : String :=
  ":battery: Capacity Status: " ++ toString r.full_cap ++ "/"
    ++ toString r.design_cap ++ " mWh"

/-- cli.py info command: fetch the report via _get_battery_report and print the
scan-time and capacity lines. -/
def Cli.info (env : Env) : Except PyError Unit × Trace :=
  match _get_battery_report env with
  | (.error e, t) => (.error e, t)
  | (.ok r, t) =>
      (.ok (),
       { t with printed := t.printed ++ [infoScanTimeLine r, infoCapacityLine r] })

/-- Success message printed by the report command (markup omitted). -/
def reportSuccessMessage (final_path : String) : String :=
  "Report generated successfully at " ++ final_path

/-- cli.py report command: validate the format, resolve the output path and
create its parent directory (parents=True, exist_ok=True), look the handler up
in FORMAT_HANDLERS, call it with the report object exactly when
needs_report_obj, print the success message, and open the browser on the final
path when the format is browser_viewable. -/
def Cli.report (env : Env) (output format : String) :
    Except PyError String × Trace :=
  match _validate_report_format format with
  | (.error e, t) => (.error e, t)
  | (.ok format_enum, t0) =>
    let output_path := resolvePath env.cwd output
    let t1 := { t0 with dirsCreated := t0.dirsCreated ++ [parentPath output_path] }
    let step :=
      if format_enum.needs_report_obj then
        match _get_battery_report env with
        | (.error e, tg) => (.error e, tg)
        | (.ok report_obj, tg) =>
          let h := callHandlerWithReport env format_enum output_path report_obj
          (h.1, Trace.merge tg h.2)
      else
        callHandlerNoReport env format_enum output_path
    match step with
    | (.error e, t2) => (.error e, Trace.merge t1 t2)
    | (.ok final_path, t2) =>
      let t3 := Trace.merge t1 t2
      let t4 := { t3 with printed := t3.printed ++ [reportSuccessMessage final_path] }
      let t5 :=
        if format_enum.browser_viewable then
          { t4 with browserOpened := t4.browserOpened ++ ["file://" ++ final_path] }
        else t4
      (.ok final_path, t5)

/-- A sample history entry for concrete runs. -/
def sampleEntry : HistoryEntry :=
  { StartDate := "2024-01-01", DesignCapacity := 50000, FullChargeCapacity := 48000 }

/-- A sample parsed report for concrete runs. -/
def sampleReport : BatteryReport :=
  { computer_name := "DESKTOP-TEST", scan_time := "2024-02-01 10:00:00",
    design_cap := 50000, full_cap := 48000, History := [sampleEntry] }

/-- A Windows host with a working powercfg utility and the optional renderer
dependencies available. -/
def winEnv : Env :=
  { platformSystem := "Windows", powercfgExitCode := 0,
    powercfgXml := "<BatteryReport/>", powercfgHtml := "<html></html>",
    plotlyAvailable := true, parsedReport := sampleReport,
    pxLineHtml := fun _ => "<html>chart</html>", cwd := "/home/user" }

/-- A Linux host, otherwise identical to winEnv. -/
def linuxEnv : Env :=
  { winEnv with platformSystem := "Linux" }

/-- A Windows host whose powercfg invocation exits with status 2. -/
def powercfgFailEnv : Env :=
  { winEnv with powercfgExitCode := 2 }

/-- A parsed report whose History sequence is empty. -/
def emptyHistoryReport : BatteryReport :=
  { sampleReport with History := [] }

/-- The member-wise correspondence between the formats.py enum and the cli.py
enum, matching members by their string values. -/
def formatCorrespondence : Formats.ReportFormat → Cli.ReportFormat
  | .BETTER => .BETTER
  | .DEFAULT => .DEFAULT
  | .RAW => .RAW

/-- The inverse member-wise correspondence, cli.py enum to formats.py enum. -/
def formatCorrespondenceInv : Cli.ReportFormat → Formats.ReportFormat
  | .BETTER => .BETTER
  | .DEFAULT => .DEFAULT
  | .RAW => .RAW

/-- On a host that is not Windows, _generate_battery_report raises
PlatformError carrying the detected platform, with an empty trace. -/
theorem gen_report_non_windows (env : Env) (b : Bool)
    (h : env.platformSystem ≠ "Windows") :
    _generate_battery_report env b
      = (.error (.platformError env.platformSystem), {}) := by
  unfold _generate_battery_report
  split
  · rfl
  · next hb => simp at hb; exact absurd hb h

/-- BatteryReport.generate always records exactly one supplier call. -/
theorem generate_supplier_calls (env : Env) :
    (BatteryReport.generate env).2.reportSupplierCalls = 1 := by
  unfold BatteryReport.generate
  rcases hg : generate_battery_report_xml env with ⟨r, t⟩
  cases r <;> simp

/-- _get_battery_report always records exactly one supplier call. -/
theorem get_report_supplier_calls (env : Env) :
    (_get_battery_report env).2.reportSupplierCalls = 1 := by
  unfold _get_battery_report
  have hc := generate_supplier_calls env
  rcases hg : BatteryReport.generate env with ⟨r, t⟩
  rw [hg] at hc
  cases r with
  | ok v => simpa using hc
  | error e => cases e <;> simpa using hc

/-- On a host that is not Windows, _get_battery_report prints the platform
error and raises typer.Exit(1), having invoked no subprocess. -/
theorem get_report_non_windows (env : Env) (h : env.platformSystem ≠ "Windows") :
    _get_battery_report env
      = (.error (.typerExit 1),
         { reportSupplierCalls := 1,
           printed := [":warning: Error: " ++ platformErrorMessage env.platformSystem] }) := by
  unfold _get_battery_report BatteryReport.generate generate_battery_report_xml
  rw [gen_report_non_windows env true h]
  rfl

/-- _generate_raw_report always raises TypeError at the keyword call into
generator.py, leaving an empty trace. -/
theorem raw_report_eval (env : Env) (p : String) :
    _generate_raw_report env p
      = (.error (.typeError "unexpected keyword argument output_path"), {}) := rfl

/-- _generate_default_report always raises TypeError at the keyword call into
generator.py, leaving an empty trace. -/
theorem default_report_eval (env : Env) (p : String) :
    _generate_default_report env p
      = (.error (.typeError "unexpected keyword argument output_path"), {}) := rfl

/-- C3: every ReportFormat variant carries exactly the declared attribute
table: Better maps to extension ".html", requires the parsed record and is
browser viewable; Default maps to ".html", does not require the record and is
browser viewable; Raw maps to ".xml", does not require the record and is not
browser viewable.  The attributes are functions of the variant alone (their
definitions take no other argument), and the table holds for the enum in
cli.py and for the one in formats.py alike. -/
theorem c3_format_attribute_table :
    (Cli.ReportFormat.BETTER.extension = ".html"
      ∧ Cli.ReportFormat.BETTER.needs_report_obj = true
      ∧ Cli.ReportFormat.BETTER.browser_viewable = true)
  ∧ (Cli.ReportFormat.DEFAULT.extension = ".html"
      ∧ Cli.ReportFormat.DEFAULT.needs_report_obj = false
      ∧ Cli.ReportFormat.DEFAULT.browser_viewable = true)
  ∧ (Cli.ReportFormat.RAW.extension = ".xml"
      ∧ Cli.ReportFormat.RAW.needs_report_obj = false
      ∧ Cli.ReportFormat.RAW.browser_viewable = false)
  ∧ (Formats.ReportFormat.BETTER.extension = ".html"
      ∧ Formats.ReportFormat.BETTER.needs_report_obj = true
      ∧ Formats.ReportFormat.BETTER.browser_viewable = true)
  ∧ (Formats.ReportFormat.DEFAULT.extension = ".html"
      ∧ Formats.ReportFormat.DEFAULT.needs_report_obj = false
      ∧ Formats.ReportFormat.DEFAULT.browser_viewable = true)
  ∧ (Formats.ReportFormat.RAW.extension = ".xml"
      ∧ Formats.ReportFormat.RAW.needs_report_obj = false
      ∧ Formats.ReportFormat.RAW.browser_viewable = false) := by
  decide

/-- C10: the two independently defined ReportFormat enums are extensionally
equal: the value-matching correspondence is a bijection (witnessed by the two
round-trip identities), it preserves the string value and the three derived
attributes, and every member of either enum has extension ".html" or ".xml",
so the fall-through branch returning "" is unreachable in both definitions. -/
theorem c10_report_format_enums_agree :
    (∀ f : Formats.ReportFormat,
        (formatCorrespondence f).value = f.value
      ∧ (formatCorrespondence f).extension = f.extension
      ∧ (formatCorrespondence f).needs_report_obj = f.needs_report_obj
      ∧ (formatCorrespondence f).browser_viewable = f.browser_viewable)
  ∧ (∀ f : Formats.ReportFormat, formatCorrespondenceInv (formatCorrespondence f) = f)
  ∧ (∀ g : Cli.ReportFormat, formatCorrespondence (formatCorrespondenceInv g) = g)
  ∧ (∀ f : Formats.ReportFormat, f.extension = ".html" ∨ f.extension = ".xml")
  ∧ (∀ g : Cli.ReportFormat, g.extension = ".html" ∨ g.extension = ".xml") := by
  refine ⟨fun f => ?_, fun f => ?_, fun g => ?_, fun f => ?_, fun g => ?_⟩
  · cases f <;> exact ⟨rfl, rfl, rfl, rfl⟩
  · cases f <;> rfl
  · cases g <;> rfl
  · cases f <;> decide
  · cases g <;> decide

/-- C1: the claimed scenario fails on the code.  On a Windows host with a
working utility, report with format raw and output ./out/batt resolves the
final path /home/user/out/batt.xml and creates the out directory, and the
parsed record is never requested; but the handler then calls
generate_battery_report_xml(output_path=final_path) while generator.py
declares generate_battery_report_xml with no parameters, so the run raises
TypeError, exits with code 1, and writes no file at all, in particular not
the claimed artifact. -/
theorem c1_raw_report_raises_type_error :
    (Cli.report winEnv "./out/batt" "raw").1
        = .error (.typeError "unexpected keyword argument output_path")
  ∧ exitCode (Cli.report winEnv "./out/batt" "raw").1 = 1
  ∧ (Cli.report winEnv "./out/batt" "raw").2.filesWritten = []
  ∧ (Cli.report winEnv "./out/batt" "raw").2.subprocessCalls = []
  ∧ (Cli.report winEnv "./out/batt" "raw").2.reportSupplierCalls = 0
  ∧ (Cli.report winEnv "./out/batt" "raw").2.dirsCreated = ["/home/user/out"]
  ∧ with_suffix (resolvePath winEnv.cwd "./out/batt") Cli.ReportFormat.RAW.extension
        = "/home/user/out/batt.xml" :=
  ⟨rfl, rfl, rfl, rfl, rfl, rfl, rfl⟩

/-- C7: the claim fails on the code.  The info command on a working Windows
host succeeds with exit code 0 and prints the scan-time line and the capacity
line, but no printed line mentions the computer name (neither the label
Computer Name asserted by tests/test_cli.py nor the value itself), and the
labels Design Capacity and Full Charge Capacity asserted by the same test are
also absent. -/
theorem c7_info_omits_computer_name :
    exitCode (Cli.info winEnv).1 = 0
  ∧ (Cli.info winEnv).2.printed
        = [infoScanTimeLine sampleReport, infoCapacityLine sampleReport]
  ∧ ((Cli.info winEnv).2.printed.all
        fun line => !strContains line "Computer Name") = true
  ∧ ((Cli.info winEnv).2.printed.all
        fun line => !strContains line sampleReport.computer_name) = true
  ∧ ((Cli.info winEnv).2.printed.all
        fun line => !strContains line "Design Capacity") = true
  ∧ ((Cli.info winEnv).2.printed.all
        fun line => !strContains line "Full Charge Capacity") = true := by
  refine ⟨rfl, rfl, ?_, ?_, ?_, ?_⟩ <;> decide

/-- On Windows with a failing powercfg, _generate_battery_report raises
CalledProcessError after one subprocess invocation, and the temporary
directory is still removed. -/
theorem gen_report_windows_fail (env : Env) (b : Bool)
    (hw : env.platformSystem = "Windows") (hf : env.powercfgExitCode ≠ 0) :
    _generate_battery_report env b
      = (.error (.calledProcessError env.powercfgExitCode (powercfgCmd b)),
         { subprocessCalls := [powercfgCmd b],
           tempDirsCreated := 1, tempDirsRemoved := 1 }) := by
  unfold _generate_battery_report
  rw [hw]
  simp [hf]

/-- On Windows with a succeeding powercfg, _generate_battery_report returns
the content written by the utility, read back with encoding utf-8, and the
temporary directory is removed. -/
theorem gen_report_windows_ok (env : Env) (b : Bool)
    (hw : env.platformSystem = "Windows") (h0 : env.powercfgExitCode = 0) :
    _generate_battery_report env b
      = (.ok (if b then env.powercfgXml else env.powercfgHtml),
         { subprocessCalls := [powercfgCmd b],
           filesWritten :=
             [(tempReportPath b, if b then env.powercfgXml else env.powercfgHtml)],
           tempDirsCreated := 1, tempDirsRemoved := 1,
           readEncodings := ["utf-8"] }) := by
  unfold _generate_battery_report
  rw [hw, h0]
  simp

/-- C4: an unrecognized format identifier (after case-insensitive matching)
makes the report command print the invalid-format error enumerating the valid
set and exit with code 1, before any directory creation, file write or
subprocess invocation; conversely a format string whose lowercasing is a
member value is accepted and mapped to that member by _validate_report_format. -/
theorem c4_invalid_format_rejected (env : Env) (output s : String) :
    (Cli.reportFormatOfValue (pyLower s) = none →
        (Cli.report env output s).1 = .error (.typerExit 1)
      ∧ exitCode (Cli.report env output s).1 = 1
      ∧ (Cli.report env output s).2.filesWritten = []
      ∧ (Cli.report env output s).2.dirsCreated = []
      ∧ (Cli.report env output s).2.subprocessCalls = []
      ∧ (Cli.report env output s).2.printed = [invalidFormatMessage s]
      ∧ valid_formats = ["better", "default", "raw"])
  ∧ (∀ f, Cli.reportFormatOfValue (pyLower s) = some f →
        (_validate_report_format s).1 = .ok f) := by
  constructor
  · intro h
    unfold Cli.report _validate_report_format
    rw [h]
    exact ⟨rfl, rfl, rfl, rfl, rfl, rfl, rfl⟩
  · intro f h
    unfold _validate_report_format
    rw [h]

/-- C4 witness: the string bogus is rejected with exit code 1, no directory,
file or subprocess effect, and the enumerating message; the string BeTTeR is
accepted as the BETTER member. -/
theorem c4_invalid_format_rejected_witness :
    ((Cli.report winEnv "./out/batt" "bogus").1 = .error (.typerExit 1)
      ∧ exitCode (Cli.report winEnv "./out/batt" "bogus").1 = 1
      ∧ (Cli.report winEnv "./out/batt" "bogus").2.filesWritten = []
      ∧ (Cli.report winEnv "./out/batt" "bogus").2.dirsCreated = []
      ∧ (Cli.report winEnv "./out/batt" "bogus").2.subprocessCalls = []
      ∧ (Cli.report winEnv "./out/batt" "bogus").2.printed
          = [invalidFormatMessage "bogus"]
      ∧ valid_formats = ["better", "default", "raw"])
  ∧ (_validate_report_format "BeTTeR").1 = .ok Cli.ReportFormat.BETTER :=
  ⟨(c4_invalid_format_rejected winEnv "./out/batt" "bogus").1 rfl,
   (c4_invalid_format_rejected winEnv "./out/batt" "BeTTeR").2 .BETTER rfl⟩

/-- C6: with the optional renderer dependencies importable and an empty
History sequence, the better handler completes without failing: it hands the
renderer an empty series (zero data points), writes the rendered chart at the
output path with suffix .html, and returns that final path. -/
theorem c6_empty_history_ok (env : Env) (output_path : String)
    (obj : BatteryReport)
    (hdeps : env.plotlyAvailable = true) (hh : obj.History = []) :
    (_generate_better_report env output_path obj).1
        = .ok (with_suffix output_path ".html")
  ∧ (_generate_better_report env output_path obj).2.seriesToRenderer = some []
  ∧ (_generate_better_report env output_path obj).2.filesWritten
        = [(with_suffix output_path ".html", env.pxLineHtml [])] := by
  unfold _generate_better_report
  rw [hdeps, hh]
  exact ⟨rfl, rfl, rfl⟩

/-- C6 witness: a report with empty History on a working host with the
renderer dependencies present yields an empty series and the .html artifact. -/
theorem c6_empty_history_ok_witness :
    winEnv.plotlyAvailable = true
  ∧ emptyHistoryReport.History = []
  ∧ (_generate_better_report winEnv "/home/user/out/batt" emptyHistoryReport).1
        = .ok (with_suffix "/home/user/out/batt" ".html")
  ∧ (_generate_better_report winEnv "/home/user/out/batt" emptyHistoryReport).2.seriesToRenderer
        = some []
  ∧ with_suffix "/home/user/out/batt" ".html" = "/home/user/out/batt.html" :=
  have h := c6_empty_history_ok winEnv "/home/user/out/batt" emptyHistoryReport rfl rfl
  ⟨rfl, rfl, h.1, h.2.1, rfl⟩

/-- C8: generator.py passes check=True to subprocess.run, so whenever the
external utility exits with a non-zero status the acquirer raises
CalledProcessError instead of returning empty or partial content, and the file
content is returned to the caller exactly when the utility exits with status
zero. -/
theorem c8_nonzero_exit_status_raises (env : Env) (as_xml : Bool)
    (hw : env.platformSystem = "Windows") :
    (env.powercfgExitCode ≠ 0 →
      (_generate_battery_report env as_xml).1
        = .error (.calledProcessError env.powercfgExitCode (powercfgCmd as_xml)))
  ∧ (env.powercfgExitCode = 0 →
      (_generate_battery_report env as_xml).1
        = .ok (if as_xml then env.powercfgXml else env.powercfgHtml)) := by
  constructor
  · intro h
    rw [gen_report_windows_fail env as_xml hw h]
  · intro h
    rw [gen_report_windows_ok env as_xml hw h]

/-- C8 witness: with powercfg exiting with status 2 the acquirer raises
CalledProcessError, and with status 0 it returns the XML content. -/
theorem c8_nonzero_exit_status_raises_witness :
    (powercfgFailEnv.powercfgExitCode ≠ 0
      ∧ (_generate_battery_report powercfgFailEnv true).1
          = .error (.calledProcessError 2 (powercfgCmd true)))
  ∧ (winEnv.powercfgExitCode = 0
      ∧ (_generate_battery_report winEnv true).1 = .ok "<BatteryReport/>") :=
  ⟨⟨by decide, (c8_nonzero_exit_status_raises powercfgFailEnv true rfl).1 (by decide)⟩,
   ⟨rfl, (c8_nonzero_exit_status_raises winEnv true rfl).2 rfl⟩⟩

/-- C9: for the acquirer (which never takes a caller destination: generator.py
always writes into the scoped temporary directory), the temporary directory
is removed on every exit path, the count of removals always equalling the
count of creations; and on a normal return the content handed back is exactly
the full text the utility wrote into the temporary location, read back with
encoding utf-8. -/
theorem c9_temp_dir_removed_every_path (env : Env) (as_xml : Bool) :
    ((_generate_battery_report env as_xml).2.tempDirsRemoved
        = (_generate_battery_report env as_xml).2.tempDirsCreated)
  ∧ (∀ content, (_generate_battery_report env as_xml).1 = .ok content →
        content = (if as_xml then env.powercfgXml else env.powercfgHtml)
      ∧ (_generate_battery_report env as_xml).2.filesWritten
          = [(tempReportPath as_xml, content)]
      ∧ (_generate_battery_report env as_xml).2.readEncodings = ["utf-8"]
      ∧ (_generate_battery_report env as_xml).2.tempDirsCreated = 1) := by
  by_cases hw : env.platformSystem = "Windows"
  · by_cases h0 : env.powercfgExitCode = 0
    · rw [gen_report_windows_ok env as_xml hw h0]
      refine ⟨rfl, fun content h => ?_⟩
      cases h
      exact ⟨rfl, rfl, rfl, rfl⟩
    · rw [gen_report_windows_fail env as_xml hw h0]
      exact ⟨rfl, fun content h => by cases h⟩
  · rw [gen_report_non_windows env as_xml hw]
    exact ⟨rfl, fun content h => by cases h⟩

/-- C9 witness: on a working Windows host the acquirer creates and removes one
temporary directory and returns exactly the utility content. -/
theorem c9_temp_dir_removed_every_path_witness :
    ((_generate_battery_report winEnv true).2.tempDirsRemoved
        = (_generate_battery_report winEnv true).2.tempDirsCreated)
  ∧ ((_generate_battery_report winEnv true).1 = .ok "<BatteryReport/>")
  ∧ ("<BatteryReport/>" = (if true then winEnv.powercfgXml else winEnv.powercfgHtml)
      ∧ (_generate_battery_report winEnv true).2.filesWritten
          = [(tempReportPath true, "<BatteryReport/>")]
      ∧ (_generate_battery_report winEnv true).2.readEncodings = ["utf-8"]
      ∧ (_generate_battery_report winEnv true).2.tempDirsCreated = 1) :=
  have h := c9_temp_dir_removed_every_path winEnv true
  ⟨h.1, rfl, h.2 "<BatteryReport/>" rfl⟩

/-- The better handler never requests the report supplier itself. -/
theorem better_report_supplier_calls (env : Env) (p : String)
    (obj : BatteryReport) :
    (_generate_better_report env p obj).2.reportSupplierCalls = 0 := by
  unfold _generate_better_report
  split <;> rfl

/-- On a host that is not Windows, the report command exits with code 1 for
every output and format string, with no subprocess invoked and no file
written. -/
theorem report_non_windows (env : Env) (output fmtStr : String)
    (h : env.platformSystem ≠ "Windows") :
    exitCode (Cli.report env output fmtStr).1 = 1
  ∧ (Cli.report env output fmtStr).2.subprocessCalls = []
  ∧ (Cli.report env output fmtStr).2.filesWritten = [] := by
  unfold Cli.report _validate_report_format
  rcases hv : Cli.reportFormatOfValue (pyLower fmtStr) with _ | f
  · exact ⟨rfl, rfl, rfl⟩
  · cases f with
    | BETTER =>
      rw [get_report_non_windows env h]
      exact ⟨rfl, rfl, rfl⟩
    | DEFAULT => exact ⟨rfl, rfl, rfl⟩
    | RAW => exact ⟨rfl, rfl, rfl⟩

/-- On a host that is not Windows, the info command prints the platform error
and exits with code 1, with no subprocess invoked and no file written. -/
theorem info_non_windows (env : Env) (h : env.platformSystem ≠ "Windows") :
    Cli.info env
      = (.error (.typerExit 1),
         { reportSupplierCalls := 1,
           printed := [":warning: Error: " ++ platformErrorMessage env.platformSystem] }) := by
  unfold Cli.info
  rw [get_report_non_windows env h]

/-- On Windows the platform gate passes: the acquirer never produces a
PlatformError, prints nothing, and proceeds to the one subprocess invocation. -/
theorem gen_report_windows_gate_passes (env : Env) (b : Bool)
    (hW : env.platformSystem = "Windows") :
    (∀ p, (_generate_battery_report env b).1 ≠ .error (.platformError p))
  ∧ (_generate_battery_report env b).2.printed = []
  ∧ (_generate_battery_report env b).2.subprocessCalls = [powercfgCmd b] := by
  by_cases h0 : env.powercfgExitCode = 0
  · rw [gen_report_windows_ok env b hW h0]
    refine ⟨fun p hp => ?_, rfl, rfl⟩
    simp at hp
  · rw [gen_report_windows_fail env b hW h0]
    refine ⟨fun p hp => ?_, rfl, rfl⟩
    simp at hp

/-- needs_report_obj of each cli.py member, by computation. -/
theorem needs_report_obj_eval :
    Cli.ReportFormat.BETTER.needs_report_obj = true
  ∧ Cli.ReportFormat.DEFAULT.needs_report_obj = false
  ∧ Cli.ReportFormat.RAW.needs_report_obj = false := ⟨rfl, rfl, rfl⟩

/-- browser_viewable of each cli.py member, by computation. -/
theorem browser_viewable_eval :
    Cli.ReportFormat.BETTER.browser_viewable = true
  ∧ Cli.ReportFormat.DEFAULT.browser_viewable = true
  ∧ Cli.ReportFormat.RAW.browser_viewable = false := ⟨rfl, rfl, rfl⟩

/-- C2: for a format string accepted as the variant f, the report command
requests the parsed record (counted by the call spy on BatteryReport.generate,
the report supplier) exactly when f.needs_report_obj holds: the Better path
always requests it and the Default and Raw paths never do. -/
theorem c2_supplier_called_iff_needs (env : Env) (output fmtStr : String)
    (f : Cli.ReportFormat)
    (h : Cli.reportFormatOfValue (pyLower fmtStr) = some f) :
    ((Cli.report env output fmtStr).2.reportSupplierCalls ≠ 0)
      ↔ f.needs_report_obj = true := by
  unfold Cli.report _validate_report_format
  rw [h]
  cases f with
  | BETTER =>
    have hc := get_report_supplier_calls env
    rcases hg : _get_battery_report env with ⟨r, t⟩
    rw [hg] at hc
    simp only at hc
    cases r with
    | error e =>
      simp [hg, Trace.merge, hc, needs_report_obj_eval.1]
    | ok v =>
      have hbs := better_report_supplier_calls env (resolvePath env.cwd output) v
      rcases hb : _generate_better_report env (resolvePath env.cwd output) v
        with ⟨hr, ht⟩
      rw [hb] at hbs
      simp only at hbs
      cases hr <;>
        simp [hg, hb, callHandlerWithReport, Trace.merge, hc, hbs,
          needs_report_obj_eval.1, browser_viewable_eval.1]
  | DEFAULT =>
    simp [callHandlerNoReport, default_report_eval, Trace.merge,
      needs_report_obj_eval.2.1]
  | RAW =>
    simp [callHandlerNoReport, raw_report_eval, Trace.merge,
      needs_report_obj_eval.2.2]

/-- C2 witness: the format string Better (any casing) maps to BETTER, and the
report command then requests the parsed record, matching needs_report_obj. -/
theorem c2_supplier_called_iff_needs_witness :
    Cli.reportFormatOfValue (pyLower "Better") = some Cli.ReportFormat.BETTER
  ∧ (((Cli.report winEnv "./out/batt" "Better").2.reportSupplierCalls ≠ 0)
      ↔ Cli.ReportFormat.BETTER.needs_report_obj = true) :=
  ⟨rfl, c2_supplier_called_iff_needs winEnv "./out/batt" "Better" .BETTER rfl⟩

/-- C5: on a host that is not Windows, the platform gate inside the acquirer
fails with a PlatformError carrying the detected platform name, with no
subprocess invoked, no file written and an empty trace; the info command then
reports the error and exits with code 1 with no subprocess and no file, and
the report command exits with code 1 with no subprocess and no file for every
output and format string; on Windows the gate succeeds silently: the acquirer
never produces a PlatformError, prints nothing, and proceeds to the subprocess
invocation. -/
theorem c5_platform_gate (env envW : Env) (output fmtStr : String) (b : Bool)
    (h : env.platformSystem ≠ "Windows") (hW : envW.platformSystem = "Windows") :
    _generate_battery_report env b
        = (.error (.platformError env.platformSystem), {})
  ∧ (Cli.info env).1 = .error (.typerExit 1)
  ∧ exitCode (Cli.info env).1 = 1
  ∧ (Cli.info env).2.subprocessCalls = []
  ∧ (Cli.info env).2.filesWritten = []
  ∧ (Cli.info env).2.printed
      = [":warning: Error: " ++ platformErrorMessage env.platformSystem]
  ∧ exitCode (Cli.report env output fmtStr).1 = 1
  ∧ (Cli.report env output fmtStr).2.subprocessCalls = []
  ∧ (Cli.report env output fmtStr).2.filesWritten = []
  ∧ (∀ p, (_generate_battery_report envW b).1 ≠ .error (.platformError p))
  ∧ (_generate_battery_report envW b).2.printed = []
  ∧ (_generate_battery_report envW b).2.subprocessCalls = [powercfgCmd b] := by
  have hrep := report_non_windows env output fmtStr h
  have hgate := gen_report_windows_gate_passes envW b hW
  refine ⟨gen_report_non_windows env b h, ?_, ?_, ?_, ?_, ?_,
    hrep.1, hrep.2.1, hrep.2.2, hgate.1, hgate.2.1, hgate.2.2⟩ <;>
    rw [info_non_windows env h] <;> rfl

/-- C5 witness: on a Linux host the gate raises PlatformError carrying Linux,
info exits with code 1 without subprocess or file effects, and the report
command with format better exits with code 1; the Windows host passes the
gate. -/
theorem c5_platform_gate_witness :
    linuxEnv.platformSystem ≠ "Windows"
  ∧ _generate_battery_report linuxEnv true
      = (.error (.platformError "Linux"), {})
  ∧ exitCode (Cli.info linuxEnv).1 = 1
  ∧ (Cli.info linuxEnv).2.subprocessCalls = []
  ∧ (Cli.info linuxEnv).2.filesWritten = []
  ∧ exitCode (Cli.report linuxEnv "./out/batt" "better").1 = 1
  ∧ (∀ p, (_generate_battery_report winEnv true).1 ≠ .error (.platformError p)) :=
  have h := c5_platform_gate linuxEnv winEnv "./out/batt" "better" true
    (by decide) rfl
  ⟨by decide, h.1, h.2.2.1, h.2.2.2.1, h.2.2.2.2.1, h.2.2.2.2.2.2.1,
   h.2.2.2.2.2.2.2.2.2.1⟩

end BBRpy
